import Mathlib

/-!
Shallow embedding of `simple_form.py`, a small "message in a bottle"
notification service backed by a single sqlite database file.

The persistent state (the database file) is modelled by `DBState`: the rows of
the `notices` table, the rows of the `versions` table, plus bookkeeping for
`CREATE TABLE IF NOT EXISTS` and for the `parent_id` column added by the
schema migration.  Each method of the Python `Model` class becomes a Lean
function over `DBState`; a method that can raise a Python exception returns
`Except`.  The program is Python 2, and two of its quirks matter and are
modelled explicitly:

* a `sqlite3.Cursor` object defines neither `__nonzero__` nor `__len__`, so
  testing a cursor for truth (as `close_entry` does with `if row:`) always
  succeeds (`cursorIsTruthy`);
* comparing a tuple with an int (as `check_schema` does with
  `ver[0] < Model.schema_version`, where `ver[0]` is a fetched row) never
  raises in Python 2: numeric types order below all other types, so the
  comparison is always `False` (`pyTupleLtInt`).
-/

/-- A row of the `notices` table.  `id` is the INTEGER PRIMARY KEY
AUTOINCREMENT column, `postdate` the creation timestamp and `closedate` the
optional closing timestamp (`NULL` while the notice is open).  The
`parent_id` column added by the migration is never populated or read, so the
only information it carries is schema-level and lives in
`DBState.hasParentCol`. -/
structure Notice where
  id : Nat
  name : String
  message : String
  postdate : Nat
  closedate : Option Nat
deriving DecidableEq

/-- The contents of the database file.  `noticesExists` / `versionsExists`
record whether the two tables have been created (for `CREATE TABLE IF NOT
EXISTS`), `hasParentCol` whether the migration's `ALTER TABLE notices ADD
COLUMN parent_id` has run, and `nextId` the AUTOINCREMENT counter for the
`notices` table. -/
@[ext]
structure DBState where
  noticesExists : Bool
  hasParentCol : Bool
  notices : List Notice
  nextId : Nat
  versionsExists : Bool
  versions : List (String × Int)
deriving DecidableEq

/-- Python exceptions that the modelled code paths can raise. -/
inductive PyError where
  | typeError
  | valueError
  | zeroDivisionError
deriving DecidableEq

/-- The error taxonomy named by the specification for `create`.  The code
itself raises only storage-layer errors (`sqlite3.IntegrityError` /
`sqlite3.OperationalError`), modelled by `storageError`; `validationError`
exists so that the two kinds can be told apart in statements, but no code
path produces it. -/
inductive StoreError where
  | validationError
  | storageError
deriving DecidableEq

/-- The outcome strings returned by `Model.close_entry`:
`'Entry %s was already closed on %s' % (row[0], row[4])`,
`'Bad entry: Cannot close'` and `'Entry_%s_closed' % row[0]`. -/
inductive CloseResult where
  | alreadyClosed (id : Nat) (closedate : Nat)
  | badEntry
  | closed (id : Nat)
deriving DecidableEq

/-- One row of the result of `get_open_entries`:
`SELECT id, name, postdate, SUBSTR(message, 1, ?)`. -/
structure EntryRow where
  id : Nat
  name : String
  postdate : Nat
  message : String
deriving DecidableEq

/-- `SELECT id, name, postdate, message, closedate FROM notices WHERE id=?`
followed by `fetchone()`: the first (by primary key, unique) row with the
given id, if any. -/
def findNotice (st : DBState) (entry : Nat) : Option Notice :=
  st.notices.find? (fun n => n.id == entry)

/-- `close_entry` tests `if row:` where `row` is the cursor returned by
`self.db.execute(...)`.  A `sqlite3.Cursor` defines neither `__nonzero__`
nor `__len__`, so in Python 2 the cursor object is always truthy and the
`else` branch (`return 'Bad entry: Cannot close'`) is unreachable. -/
def cursorIsTruthy : Bool := true

/-- `Model.close_entry(entry)`: SELECT the row; if the cursor is truthy
(always), `fetchone()`; a missing row gives `row = None`, and `row[4]`
raises `TypeError`.  A row whose `closedate` is set returns the
"already closed" string with the prior timestamp.  Otherwise
`UPDATE notices set closedate=DATETIME('NOW') WHERE id=?` and commit.
`now` stands for `DATETIME('NOW')`. -/
def Model.close_entry (st : DBState) (entry : Nat) (now : Nat) :
    Except PyError (CloseResult × DBState) :=
  if cursorIsTruthy then
    match findNotice st entry with
    | none => .error .typeError
    | some row =>
      match row.closedate with
      | some cd => .ok (.alreadyClosed row.id cd, st)
      | none =>
        .ok (.closed row.id,
          { st with notices := st.notices.map (fun n =>
              if n.id == entry then { n with closedate := some now } else n) })
  else
    .ok (.badEntry, st)

/-- `Model.create_entry(name, message)`:
`INSERT INTO notices (name, message) VALUES (?, ?)`, commit, return
`lastrowid`.  A `None` parameter violates the schema's NOT NULL constraint
and `sqlite3.IntegrityError` propagates (there is no try/except and no
validation in the method); `postdate` defaults to the current time (`now`)
and `closedate` to NULL. -/
def Model.create_entry (st : DBState) (name message : Option String)
    (now : Nat) : Except StoreError (Nat × DBState) :=
  match name, message with
  | some nm, some msg =>
    .ok (st.nextId,
      { st with
        notices := st.notices ++ [⟨st.nextId, nm, msg, now, none⟩],
        nextId := st.nextId + 1 })
  | _, _ => .error .storageError

/-- `Model.get_open_entry_count`:
`SELECT COUNT(id) FROM notices WHERE closedate IS NULL`. -/
def Model.get_open_entry_count (st : DBState) : Nat :=
  (st.notices.filter (fun n => decide (n.closedate = none))).length

/-- The `ORDER BY id DESC` ordering on notices. -/
def idGe (a b : Notice) : Prop := b.id ≤ a.id

instance : DecidableRel idGe := fun a b => inferInstanceAs (Decidable (b.id ≤ a.id))

instance : IsTotal Notice idGe := ⟨fun a b => Nat.le_total b.id a.id⟩

instance : IsTrans Notice idGe := ⟨fun _ _ _ h1 h2 => Nat.le_trans h2 h1⟩

/-- The open notices in the order the query
`... WHERE closedate IS NULL ORDER BY id DESC` enumerates them. -/
def openDesc (st : DBState) : List Notice :=
  List.insertionSort idGe (st.notices.filter (fun n => decide (n.closedate = none)))

/-- Project a notice to a result row of `get_open_entries`;
`SUBSTR(message, 1, width)` is the first `width` characters. -/
def truncRow (width : Nat) (n : Notice) : EntryRow :=
  ⟨n.id, n.name, n.postdate, n.message.take width⟩

/-- `Model.get_open_entries(count, offset, width)`: `offset = offset * count`;
`SELECT id, name, postdate, SUBSTR(message, 1, ?) ... LIMIT ? OFFSET ?`
(pure read); then `pagecount = int(self.get_open_entry_count() / count)`,
which raises `ZeroDivisionError` when `count = 0`, and for `count ≥ 1` is
Python 2 floor division of non-negative ints, i.e. `Nat` division. -/
def Model.get_open_entries (st : DBState) (count offset width : Nat) :
    Except PyError ((List EntryRow × Nat) × DBState) :=
  let off := offset * count
  let rows := (((openDesc st).drop off).take count).map (truncRow width)
  if count = 0 then .error .zeroDivisionError
  else .ok ((rows, Model.get_open_entry_count st / count), st)

/-- Iterate any sequence of `get_open_entries` calls (a list of
`(count, offset, width)` parameter triples), threading the store state; a
call that raises leaves the state as it was at the raise. -/
def listCalls : DBState → List (Nat × Nat × Nat) → DBState
  | st, [] => st
  | st, (c, o, w) :: rest =>
    listCalls
      (match Model.get_open_entries st c o w with
       | .ok (_, st1) => st1
       | .error _ => st) rest

/-- `Model.schema_version = 1`. -/
def schema_version : Int := 1

/-- `ver[0] < Model.schema_version` in `check_schema`: `ver[0]` is a fetched
row, a 1-tuple `(version,)` (modelled as the list of selected column
values), not an integer.  CPython 2 compares mixed types by type, with all
numbers below tuples, so a tuple is never less than an int: the comparison
is always `False`, whatever the stored version. -/
def pyTupleLtInt (_row : List Int) (_n : Int) : Bool := false

/-- `INSERT OR REPLACE INTO versions (component, version) VALUES (c, v)`:
`component` is UNIQUE, so any existing row for `c` is replaced. -/
def insertOrReplace (rows : List (String × Int)) (c : String) (v : Int) :
    List (String × Int) :=
  rows.filter (fun r => decide (r.1 ≠ c)) ++ [(c, v)]

/-- The `CREATE TABLE IF NOT EXISTS notices (...)` statement of
`Model.__init__`: a no-op when the table exists, otherwise a fresh empty
table (no `parent_id` column; AUTOINCREMENT starts at 1). -/
def Model.prep_table (st : DBState) : DBState :=
  if st.noticesExists then st
  else
    { st with
      noticesExists := true, hasParentCol := false, notices := [], nextId := 1 }

/-- `Model.migrate`: try `ALTER TABLE notices ADD COLUMN parent_id INTEGER`
then `INSERT OR REPLACE INTO versions VALUES ('schema', 1)` then commit;
any `sqlite3.Error` is caught and `False` returned, otherwise `True`.  The
ALTER fails when the table is missing or the column already exists; the
driver autocommits DDL, so a later failure does not undo the ALTER.  The
INSERT fails when the `versions` table is missing. -/
def Model.migrate (st : DBState) : Bool × DBState :=
  if !st.noticesExists || st.hasParentCol then (false, st)
  else
    let st1 := { st with hasParentCol := true }
    if !st1.versionsExists then (false, st1)
    else (true, { st1 with versions := insertOrReplace st1.versions "schema" 1 })

/-- `Model.check_schema`: `CREATE TABLE IF NOT EXISTS versions (...)`,
commit, then `SELECT version FROM versions WHERE component = 'schema'`,
`fetchall()` (each fetched row is the 1-tuple of its selected columns), and
`if not ver or ver[0] < Model.schema_version: self.migrate()` — the
returned boolean of `migrate` is discarded. -/
def Model.check_schema (st : DBState) : DBState :=
  let st1 :=
    if st.versionsExists then st
    else { st with versionsExists := true, versions := [] }
  let ver :=
    (st1.versions.filter (fun r => r.1 == "schema")).map (fun r => [r.2])
  if ver.isEmpty then (Model.migrate st1).2
  else if pyTupleLtInt (ver.headD []) schema_version then (Model.migrate st1).2
  else st1

/-- `Model.__init__(dbfile)`: create the `notices` table if necessary,
commit, then `check_schema` (which creates `versions` if necessary and
reconciles the schema version).  The constructor returns the model object;
it exposes no migration status. -/
def Model.init (st : DBState) : DBState :=
  Model.check_schema (Model.prep_table st)

/-- The condition under which one of the statements run by `Model.migrate`
raises `sqlite3.Error`: the ALTER fails when `notices` is missing or
`parent_id` already exists, and the version INSERT fails when `versions`
is missing. -/
def migrateStatementFails (st : DBState) : Prop :=
  st.noticesExists = false ∨ st.hasParentCol = true ∨ st.versionsExists = false

/-- The PRIMARY KEY invariant of the `notices` table: ids are unique. -/
def UniqueIds (st : DBState) : Prop :=
  (st.notices.map Notice.id).Nodup

/-- What `Command.call` can hand back to `__main__`: the `(code, msg)`
tuples the `backup` command returns, or the bare string
`'Unknown command'`. -/
inductive CallResult where
  | tuple (code : Int) (msg : String)
  | str (s : String)
deriving DecidableEq

/-- `Command.call(cmd, *args)`: if `Command` has a callable attribute named
`cmd`, call it, else return `'Unknown command'`.  The callable static
methods are `backup` (at most one argument, its subprocess outcome is the
parameter `backup`) and `call` itself (which recurses; with no arguments
the call raises `TypeError` for a missing required argument). -/
def Command.call (backup : Int × String) (cmd : String) (args : List String) :
    Except PyError CallResult :=
  if cmd = "backup" then
    if args.length ≤ 1 then .ok (.tuple backup.1 backup.2) else .error .typeError
  else if cmd = "call" then
    match args with
    | [] => .error .typeError
    | c :: rest => Command.call backup c rest
  else .ok (.str "Unknown command")

/-- What the `if __name__ == '__main__'` block does. -/
inductive MainOutcome where
  | serviceStart
  | exit (code : Int) (msg : String)
  | exitChars (c1 c2 : Char)
  | uncaught (e : PyError)
deriving DecidableEq

/-- The `__main__` block: with no arguments, start the service; otherwise
dispatch `Command.call(command, *line)` and run
`exitval, msg = <result>` — a 2-tuple unpacks; a string unpacks only when
it has exactly 2 characters (no result of `Command` is such a string),
and any other string raises `ValueError: too many values to unpack` —
then print `msg` to stderr and `sys.exit(exitval)`. -/
def runMain (backup : Int × String) (argv : List String) : MainOutcome :=
  match argv with
  | [] => .serviceStart
  | cmd :: line =>
    match Command.call backup cmd line with
    | .error e => .uncaught e
    | .ok (.tuple code msg) => .exit code msg
    | .ok (.str s) =>
      match s.toList with
      | [c1, c2] => .exitChars c1 c2
      | _ => .uncaught .valueError

/-- A freshly initialized store with no notices: the state of a new
database file after `Model.__init__`. -/
def dbEmpty : DBState :=
  { noticesExists := true, hasParentCol := true, notices := [], nextId := 1,
    versionsExists := true, versions := [("schema", 1)] }

/-- An initialized store holding three open notices (ids 1, 2, 3). -/
def db3 : DBState :=
  { noticesExists := true, hasParentCol := true,
    notices := [⟨1, "a", "m1", 10, none⟩, ⟨2, "b", "m2", 11, none⟩,
                ⟨3, "c", "m3", 12, none⟩],
    nextId := 4, versionsExists := true, versions := [("schema", 1)] }

/-- An initialized store holding one notice that was closed at time 9. -/
def dbClosed : DBState :=
  { noticesExists := true, hasParentCol := true,
    notices := [⟨1, "alice", "hello", 5, some 9⟩],
    nextId := 2, versionsExists := true, versions := [("schema", 1)] }

/-- A store whose `versions` table records `('schema', 0)`: a stored schema
version strictly below `Model.schema_version = 1`, with the migration (the
`parent_id` column) not yet applied. -/
def dbVer0 : DBState :=
  { noticesExists := true, hasParentCol := false, notices := [], nextId := 1,
    versionsExists := true, versions := [("schema", 0)] }

/-- A store on which the migration's ALTER statement fails: the
`parent_id` column already exists, but no version row was recorded. -/
def dbParentNoVer : DBState :=
  { noticesExists := true, hasParentCol := true, notices := [], nextId := 1,
    versionsExists := true, versions := [] }

/-! ## Helper lemmas -/

-- A map is empty exactly when the underlying list is.
theorem mapIsEmpty {α β : Type} (f : α → β) (l : List α) :
    (l.map f).isEmpty = l.isEmpty := by
  cases l <;> rfl

-- Membership in the ordered open-notice enumeration.
theorem openDesc_mem {st : DBState} {n : Notice} (h : n ∈ openDesc st) :
    n ∈ st.notices ∧ n.closedate = none := by
  have h2 := (List.perm_insertionSort idGe
    (st.notices.filter (fun n => decide (n.closedate = none)))).mem_iff.mp h
  simpa using h2

-- Every result row of the paging query comes from a stored open notice,
-- with its message truncated to `width` characters.
theorem mem_rows_spec {st : DBState} {width off cnt : Nat} {r : EntryRow}
    (hr : r ∈ (((openDesc st).drop off).take cnt).map (truncRow width)) :
    ∃ n, n ∈ st.notices ∧ n.closedate = none ∧ r = truncRow width n := by
  obtain ⟨n, hn, rfl⟩ := List.mem_map.mp hr
  have h2 : n ∈ openDesc st :=
    List.drop_subset _ _ (List.take_subset _ _ hn)
  obtain ⟨ha, hb⟩ := openDesc_mem h2
  exact ⟨n, ha, hb, rfl⟩

-- `get_open_entries` hands the state back unchanged (it only SELECTs).
theorem get_open_entries_state (st : DBState) (c o w : Nat) :
    (match Model.get_open_entries st c o w with
     | .ok (_, st1) => st1
     | .error _ => st) = st := by
  by_cases h : c = 0 <;> simp [Model.get_open_entries, h]

-- Any sequence of listing calls leaves the store where it started.
theorem listCalls_id (st : DBState) (calls : List (Nat × Nat × Nat)) :
    listCalls st calls = st := by
  induction calls generalizing st with
  | nil => rfl
  | cons p rest ih =>
    obtain ⟨c, o, w⟩ := p
    rw [listCalls, get_open_entries_state]
    exact ih st

-- Fields of the state that `migrate` never touches.
theorem migrate_preserves (st : DBState) :
    (Model.migrate st).2.noticesExists = st.noticesExists ∧
    (Model.migrate st).2.notices = st.notices ∧
    (Model.migrate st).2.nextId = st.nextId ∧
    (Model.migrate st).2.versionsExists = st.versionsExists := by
  unfold Model.migrate
  by_cases h1 : (!st.noticesExists || st.hasParentCol) = true
  · simp [h1]
  · by_cases h2 : st.versionsExists <;> simp [h1, h2]

-- Fields of the state that `check_schema` never touches (and the fact that
-- it always leaves the `versions` table in existence).
theorem check_schema_fields (st : DBState) :
    (Model.check_schema st).noticesExists = st.noticesExists ∧
    (Model.check_schema st).notices = st.notices ∧
    (Model.check_schema st).nextId = st.nextId ∧
    (Model.check_schema st).versionsExists = true := by
  unfold Model.check_schema
  by_cases hv : st.versionsExists <;>
    simp only [hv, if_true, if_false, Bool.false_eq_true] <;>
    split_ifs <;>
    simp [migrate_preserves, hv]

-- When the version check finds no row for 'schema', `check_schema` is the
-- state component of `migrate` (the boolean component is discarded).
theorem check_schema_no_row (st : DBState) (hv : st.versionsExists = true)
    (he : st.versions.filter (fun r => r.1 == "schema") = []) :
    Model.check_schema st = (Model.migrate st).2 := by
  unfold Model.check_schema
  simp [hv, he]

-- After a successful version bump the 'schema' row is present.
theorem filter_insertOrReplace (v : List (String × Int)) :
    (insertOrReplace v "schema" 1).filter (fun r => r.1 == "schema") =
      [("schema", 1)] := by
  unfold insertOrReplace
  induction v with
  | nil => rfl
  | cons a as ih =>
    by_cases ha : a.1 = "schema"
    · simp only [insertOrReplace] at ih
      simp [ha, ih]
    · simp only [insertOrReplace] at ih
      simp [List.filter_cons, ha, ih]

-- A state already carrying both tables, in which any pending migration
-- would fail identically, is a fixed point of initialization.
theorem init_fixed (st : DBState) (h1 : st.noticesExists = true)
    (h2 : st.versionsExists = true)
    (h3 : (st.versions.filter (fun r => r.1 == "schema")).isEmpty = true →
      st.hasParentCol = true) :
    Model.init st = st := by
  unfold Model.init Model.prep_table
  rw [h1, if_pos rfl]
  unfold Model.check_schema
  rw [h2, if_pos rfl]
  cases hfe : (st.versions.filter (fun r => r.1 == "schema")).isEmpty with
  | true =>
    have hp := h3 hfe
    rw [List.isEmpty_iff] at hfe
    simp [hfe, Model.migrate, hp]
  | false =>
    rw [List.isEmpty_eq_false] at hfe
    have hne : ((st.versions.filter (fun r => r.1 == "schema")).map
        (fun r => [r.2])).isEmpty = false := by
      rw [mapIsEmpty, List.isEmpty_eq_false]
      exact hfe
    simp [hne, pyTupleLtInt]

-- Initialization establishes the fixed-point conditions.
theorem init_establishes (st : DBState) :
    (Model.init st).noticesExists = true ∧
    (Model.init st).versionsExists = true ∧
    (((Model.init st).versions.filter (fun r => r.1 == "schema")).isEmpty =
        true → (Model.init st).hasParentCol = true) := by
  have hn : (Model.prep_table st).noticesExists = true := by
    unfold Model.prep_table; split_ifs with h <;> simp [h]
  refine ⟨?_, (check_schema_fields _).2.2.2, ?_⟩
  · unfold Model.init
    rw [(check_schema_fields (Model.prep_table st)).1, hn]
  · unfold Model.init Model.check_schema
    set st1 := if (Model.prep_table st).versionsExists then Model.prep_table st
      else { Model.prep_table st with versionsExists := true, versions := [] }
      with hst1
    have hn1 : st1.noticesExists = true := by
      rw [hst1]; split_ifs <;> simpa using hn
    cases hfe : ((st1.versions.filter (fun r => r.1 == "schema")).map
        (fun r => [r.2])).isEmpty with
    | true =>
      simp only [hfe, if_true]
      unfold Model.migrate
      by_cases hpc : st1.hasParentCol
      · simp [hn1, hpc]
      · by_cases hv1 : st1.versionsExists
        · simp only [hn1, hpc, Bool.not_true, Bool.false_or, if_false, hv1,
            Bool.not_true, Bool.false_eq_true]
          intro habs
          rw [filter_insertOrReplace] at habs
          simp at habs
        · simp [hn1, hpc, hv1]
    | false =>
      simp only [hfe, Bool.false_eq_true, if_false, pyTupleLtInt]
      intro habs
      rw [mapIsEmpty] at hfe
      rw [List.isEmpty_iff] at habs
      rw [habs] at hfe
      simp at hfe

-- Initialization keeps every pre-existing version row.
theorem init_versions_sub (st : DBState) (hv : st.versionsExists = true) :
    ∀ r ∈ st.versions, r ∈ (Model.init st).versions := by
  intro r hr
  have hpv : (Model.prep_table st).versions = st.versions := by
    unfold Model.prep_table; split_ifs <;> rfl
  have hpe : (Model.prep_table st).versionsExists = true := by
    unfold Model.prep_table; split_ifs <;> simpa using hv
  unfold Model.init Model.check_schema
  simp only [hpe, if_true, hpv]
  cases hfe : ((st.versions.filter (fun r => r.1 == "schema")).map
      (fun r => [r.2])).isEmpty with
  | true =>
    simp only [hfe, if_true]
    rw [mapIsEmpty, List.isEmpty_iff] at hfe
    unfold Model.migrate
    by_cases hg : (!(Model.prep_table st).noticesExists ||
        (Model.prep_table st).hasParentCol) = true
    · simpa [hg, hpv] using hr
    · simp only [hg, if_false, hpe, Bool.not_true, Bool.false_eq_true, hpv]
      unfold insertOrReplace
      rcases eq_or_ne r.1 "schema" with hrs | hrs
      · exfalso
        have hmem : r ∈ st.versions.filter (fun x => x.1 == "schema") :=
          List.mem_filter.mpr ⟨hr, by simp [hrs]⟩
        rw [hfe] at hmem
        simp at hmem
      · exact List.mem_append_left _ (List.mem_filter.mpr ⟨hr, by simp [hrs]⟩)
  | false =>
    simp only [hfe, Bool.false_eq_true, if_false, pyTupleLtInt]
    rw [hpv]
    exact hr

/-! ## Claim theorems -/

/-- C1: the claim says `close(id)` on a nonexistent id returns a
"bad entry" / "not found" outcome and mutates nothing.  The code cannot do
that: `if row:` tests the always-truthy cursor, so the
`'Bad entry: Cannot close'` branch is dead; `fetchone()` yields `None` and
`row[4]` raises `TypeError`.  This theorem evaluates the code at the
failing input: closing id 7 on a store with no such notice raises
`TypeError` (the UPDATE is never reached, so the state is not mutated, but
no "bad entry" outcome is produced). -/
theorem close_entry_missing_id_raises :
    Model.close_entry dbEmpty 7 0 = .error .typeError := rfl

/-- C2: closing an already-closed notice returns the "already closed"
outcome carrying the prior close timestamp and leaves the state unchanged;
moreover no successful `close_entry` call ever removes or alters a notice
whose `closedate` is already set (so a `closedate` can never be overwritten
or reset to null). -/
theorem close_entry_already_closed (st : DBState) (entry now cd : Nat)
    (n : Notice) (hfind : findNotice st entry = some n)
    (hcd : n.closedate = some cd) :
    Model.close_entry st entry now = .ok (.alreadyClosed n.id cd, st) ∧
    ∀ (e t : Nat) (r : CloseResult) (st₂ : DBState),
      UniqueIds st → Model.close_entry st e t = .ok (r, st₂) →
      ∀ m ∈ st.notices, m.closedate.isSome = true → m ∈ st₂.notices := by
  constructor
  · simp [Model.close_entry, cursorIsTruthy, hfind, hcd]
  · intro e t r st₂ huniq heq m hm hsome
    unfold Model.close_entry at heq
    simp only [cursorIsTruthy, if_true] at heq
    cases hfind2 : findNotice st e with
    | none => rw [hfind2] at heq; exact absurd heq (by simp)
    | some row =>
      rw [hfind2] at heq
      dsimp only at heq
      cases hrow : row.closedate with
      | some cd2 =>
        rw [hrow] at heq
        dsimp only at heq
        simp only [Except.ok.injEq, Prod.mk.injEq] at heq
        rw [← heq.2]
        exact hm
      | none =>
        rw [hrow] at heq
        dsimp only at heq
        simp only [Except.ok.injEq, Prod.mk.injEq] at heq
        rw [← heq.2]
        have hfind2' : st.notices.find? (fun n => n.id == e) = some row :=
          hfind2
        have hrowmem : row ∈ st.notices :=
          List.mem_of_find?_eq_some hfind2'
        have hrowid0 := List.find?_some hfind2'
        have hrowid : (row.id == e) = true := hrowid0
        have huniq2 : (st.notices.map Notice.id).Nodup := huniq
        have hfm : (if m.id == e then { m with closedate := some t } else m)
            = m := by
          by_cases hme : (m.id == e) = true
          · exfalso
            have hmr : m = row := by
              apply List.inj_on_of_nodup_map huniq2 hm hrowmem
              simp only [beq_iff_eq] at hme hrowid
              rw [hme, hrowid]
            rw [hmr, hrow] at hsome
            simp at hsome
          · simp [hme]
        have hmap : (if m.id == e then { m with closedate := some t } else m)
            ∈ st.notices.map (fun n =>
              if n.id == e then { n with closedate := some t } else n) :=
          List.mem_map_of_mem _ hm
        rwa [hfm] at hmap

/-- C2 witness: on a store whose only notice (id 1) was closed at time 9,
a second close of id 1 returns the "already closed" outcome with the prior
timestamp 9 and leaves the store unchanged. -/
theorem close_entry_already_closed_witness :
    Model.close_entry dbClosed 1 50 = .ok (.alreadyClosed 1 9, dbClosed) :=
  (close_entry_already_closed dbClosed 1 50 9 ⟨1, "alice", "hello", 5, some 9⟩
    rfl rfl).1

/-- C3: for `count ≥ 1`, `get_open_entries` returns (without mutating the
store) the open notices ordered by id descending, skipping the first
`offset * count` of them and taking at most `count`, each with its message
truncated to `width` characters, and the page count is
`countOpen / count` (floor division). -/
theorem get_open_entries_pagination (st : DBState) (count offset width : Nat)
    (h : 1 ≤ count) :
    ∃ rows : List EntryRow,
      Model.get_open_entries st count offset width =
        .ok ((rows, Model.get_open_entry_count st / count), st) ∧
      rows = (((openDesc st).drop (offset * count)).take count).map
        (truncRow width) ∧
      rows.length ≤ count ∧
      rows.Pairwise (fun a b => b.id ≤ a.id) ∧
      ∀ r ∈ rows, ∃ n, n ∈ st.notices ∧ n.closedate = none ∧ r.id = n.id ∧
        r.name = n.name ∧ r.message = n.message.take width := by
  have hc : count ≠ 0 := by omega
  refine ⟨(((openDesc st).drop (offset * count)).take count).map
    (truncRow width), ?_, rfl, ?_, ?_, ?_⟩
  · simp [Model.get_open_entries, hc]
  · rw [List.length_map, List.length_take]
    exact min_le_left _ _
  · have hs : List.Sorted idGe (openDesc st) :=
      List.sorted_insertionSort idGe _
    have hsub : List.Sublist
        (((openDesc st).drop (offset * count)).take count) (openDesc st) :=
      (List.take_sublist _ _).trans (List.drop_sublist _ _)
    have hs2 : List.Pairwise idGe
        (((openDesc st).drop (offset * count)).take count) :=
      hs.sublist hsub
    exact List.pairwise_map.mpr (hs2.imp (fun hab => hab))
  · intro r hr
    obtain ⟨n, ha, hb, rfl⟩ := mem_rows_spec hr
    exact ⟨n, ha, hb, rfl, rfl, rfl⟩

set_option maxRecDepth 8000 in
/-- C3 witness: with three open notices (ids 1, 2, 3) and `count = 1`,
offset 0 returns exactly one row (the newest, id 3) with
`pageCount = 3 / 1 = 3`, and offset 2 returns the third-newest notice
(id 1); the general pagination theorem instantiates at this store. -/
theorem get_open_entries_pagination_witness :
    Model.get_open_entries db3 1 0 72 =
      .ok (([⟨3, "c", 12, "m3"⟩], 3), db3) ∧
    Model.get_open_entries db3 1 2 72 =
      .ok (([⟨1, "a", 10, "m1"⟩], 3), db3) ∧
    ∃ rows : List EntryRow,
      Model.get_open_entries db3 1 0 72 =
        .ok ((rows, Model.get_open_entry_count db3 / 1), db3) ∧
      rows = (((openDesc db3).drop (0 * 1)).take 1).map (truncRow 72) ∧
      rows.length ≤ 1 ∧
      rows.Pairwise (fun a b => b.id ≤ a.id) ∧
      ∀ r ∈ rows, ∃ n, n ∈ db3.notices ∧ n.closedate = none ∧ r.id = n.id ∧
        r.name = n.name ∧ r.message = n.message.take 72 :=
  ⟨rfl, rfl, get_open_entries_pagination db3 1 0 72 (Nat.le_refl 1)⟩

/-- C4 counterexample: the claim says an absent `name` makes `create` fail
with a `ValidationError`.  The code performs no validation: the `None`
parameter trips the schema's NOT NULL constraint inside the INSERT, a
storage-layer error, not a validation error. -/
theorem create_entry_missing_name_storage_error :
    Model.create_entry dbEmpty none (some "hello") 0 =
      .error .storageError ∧
    Model.create_entry dbEmpty none (some "hello") 0 ≠
      .error .validationError := by
  constructor
  · rfl
  · simp [Model.create_entry]

/-- C4 (amended): `create` performs no validation of its own; an absent
name or message violates the NOT NULL constraint at the storage layer and
surfaces as a (distinguishable) storage error, and for present name and
message it inserts exactly one row, with `closedate` null, and returns the
newly assigned id. -/
theorem create_entry_constraint_behavior (st : DBState) (now : Nat) :
    (∀ msg, Model.create_entry st none msg now = .error .storageError) ∧
    (∀ nm, Model.create_entry st nm none now = .error .storageError) ∧
    ∀ nm msg, ∃ st₂,
      Model.create_entry st (some nm) (some msg) now = .ok (st.nextId, st₂) ∧
      st₂.notices = st.notices ++ [⟨st.nextId, nm, msg, now, none⟩] ∧
      st₂.notices.length = st.notices.length + 1 := by
  refine ⟨fun msg => ?_, fun nm => ?_, fun nm msg => ⟨_, rfl, rfl, by simp⟩⟩
  · cases msg <;> rfl
  · cases nm <;> rfl

/-- C4 witness (amended claim): creating with an absent name on the fresh
store is a storage-layer constraint error, and a present pair inserts one
row and returns the fresh id 1. -/
theorem create_entry_constraint_behavior_witness :
    Model.create_entry dbEmpty none (some "hello") 0 = .error .storageError ∧
    ∃ st₂, Model.create_entry dbEmpty (some "alice") (some "hi") 0 =
        .ok (dbEmpty.nextId, st₂) ∧
      st₂.notices = dbEmpty.notices ++ [⟨dbEmpty.nextId, "alice", "hi", 0, none⟩] ∧
      st₂.notices.length = dbEmpty.notices.length + 1 :=
  ⟨(create_entry_constraint_behavior dbEmpty 0).1 (some "hello"),
   (create_entry_constraint_behavior dbEmpty 0).2.2 "alice" "hi"⟩

/-- C5: the claim says reconciliation migrates whenever the stored version
is strictly below the current one.  The code's version test
`ver[0] < Model.schema_version` compares the fetched row (a tuple) with an
int, which Python 2 always answers `False`, so with a stored version row
`('schema', 0)` — strictly below `schema_version = 1` — `check_schema`
changes nothing: no migration runs (the `parent_id` column is not added
and the version row stays at 0). -/
theorem check_schema_stale_version_not_migrated :
    Model.check_schema dbVer0 = dbVer0 := rfl

/-- C6: if a statement of the migration fails, `migrate` catches the
`sqlite3.Error` and returns `False` instead of raising, and no version
bump is recorded for component 'schema' (the `versions` rows are exactly
what they were); the boolean is handed to the initialization code that
called it (`check_schema` receives `migrate`'s pair and keeps only the
state). -/
theorem migrate_failure_reported (st : DBState)
    (h : migrateStatementFails st) :
    (Model.migrate st).1 = false ∧
    (Model.migrate st).2.versions = st.versions ∧
    (st.versionsExists = true →
      st.versions.filter (fun r => r.1 == "schema") = [] →
      Model.check_schema st = (Model.migrate st).2) := by
  refine ⟨?_, ?_, fun hv he => check_schema_no_row st hv he⟩ <;>
    (rcases h with h | h | h
     · simp [Model.migrate, h]
     · simp [Model.migrate, h]
     · unfold Model.migrate
       by_cases h1 : (!st.noticesExists || st.hasParentCol) = true <;>
         simp [h1, h])

/-- C6 witness: on a store where the `parent_id` column already exists but
no version row was recorded, the migration's ALTER fails: `migrate`
returns `False` (no exception), records no version bump, and the
initialization step `check_schema` completes with `migrate`'s state. -/
theorem migrate_failure_reported_witness :
    (Model.migrate dbParentNoVer).1 = false ∧
    Model.check_schema dbParentNoVer = (Model.migrate dbParentNoVer).2 :=
  ⟨(migrate_failure_reported dbParentNoVer (Or.inr (Or.inl rfl))).1,
   (migrate_failure_reported dbParentNoVer (Or.inr (Or.inl rfl))).2.2
     rfl rfl⟩

/-- C7: every row a listing call returns carries exactly the first `width`
characters of the stored message of a stored notice (same id, name and
postdate), and listing never mutates the store: the state handed back is
the input state, and after any sequence of listing calls every notice reads
back unchanged through the non-truncating lookup `findNotice`. -/
theorem get_open_entries_truncation_frame (st : DBState)
    (count offset width : Nat) (rows : List EntryRow) (pc : Nat)
    (st' : DBState)
    (h : Model.get_open_entries st count offset width = .ok ((rows, pc), st')) :
    st' = st ∧
    (∀ r ∈ rows, ∃ n, n ∈ st.notices ∧ r.id = n.id ∧ r.name = n.name ∧
      r.postdate = n.postdate ∧ r.message = n.message.take width) ∧
    (∀ calls : List (Nat × Nat × Nat), listCalls st calls = st) ∧
    (∀ calls : List (Nat × Nat × Nat), ∀ i : Nat,
      findNotice (listCalls st calls) i = findNotice st i) := by
  have hc : ¬count = 0 := by
    intro hc0
    rw [hc0] at h
    simp [Model.get_open_entries] at h
  unfold Model.get_open_entries at h
  simp only [hc, if_false, Except.ok.injEq, Prod.mk.injEq] at h
  obtain ⟨⟨hrows, -⟩, hst⟩ := h
  refine ⟨hst.symm, ?_, fun calls => listCalls_id st calls,
    fun calls i => by rw [listCalls_id st calls]⟩
  intro r hr
  rw [← hrows] at hr
  obtain ⟨n, ha, -, rfl⟩ := mem_rows_spec hr
  exact ⟨n, ha, rfl, rfl, rfl, rfl⟩

set_option maxRecDepth 8000 in
/-- C7 witness: instantiating the truncation/frame theorem on the
three-notice store for a `count = 1` listing: the state component returned
is the store itself, and a sequence of further listing calls leaves the
store (and its non-truncating row lookups) unchanged. -/
theorem get_open_entries_truncation_frame_witness :
    listCalls db3 [(1, 0, 72), (20, 0, 5), (0, 3, 2)] = db3 ∧
    findNotice (listCalls db3 [(1, 0, 72)]) 2 = findNotice db3 2 :=
  ⟨(get_open_entries_truncation_frame db3 1 0 72 [⟨3, "c", 12, "m3"⟩] 3 db3
      rfl).2.2.1 [(1, 0, 72), (20, 0, 5), (0, 3, 2)],
   (get_open_entries_truncation_frame db3 1 0 72 [⟨3, "c", 12, "m3"⟩] 3 db3
      rfl).2.2.2 [(1, 0, 72)] 2⟩

/-- C8: store initialization is idempotent — running `__init__` twice over
the same file contents equals running it once — and initialization against
existing data preserves every notice row (and the id counter) and every
version row. -/
theorem init_idempotent_preserves (st : DBState) :
    Model.init (Model.init st) = Model.init st ∧
    (st.noticesExists = true →
      (Model.init st).notices = st.notices ∧
      (Model.init st).nextId = st.nextId) ∧
    (st.versionsExists = true → ∀ r ∈ st.versions,
      r ∈ (Model.init st).versions) := by
  refine ⟨?_, ?_, fun hv => init_versions_sub st hv⟩
  · obtain ⟨h1, h2, h3⟩ := init_establishes st
    exact init_fixed _ h1 h2 h3
  · intro hn
    unfold Model.init
    have hp : Model.prep_table st = st := by
      unfold Model.prep_table; simp [hn]
    rw [hp]
    exact ⟨(check_schema_fields st).2.1, (check_schema_fields st).2.2.1⟩

/-- C8 witness: initializing an already-initialized empty store a second
time changes nothing, and its notice rows survive initialization. -/
theorem init_idempotent_preserves_witness :
    Model.init (Model.init dbEmpty) = Model.init dbEmpty ∧
    (Model.init dbEmpty).notices = dbEmpty.notices :=
  ⟨(init_idempotent_preserves dbEmpty).1,
   ((init_idempotent_preserves dbEmpty).2.1 rfl).1⟩

/-- C9: the claim says an unknown command name prints a generic failure
message and exits through a non-zero path without an unrelated exception.
The code returns the bare string `'Unknown command'` from `Command.call`,
and `__main__` then unpacks it with `exitval, msg = ...`, which raises
`ValueError: too many values to unpack` — the process crashes with a
traceback instead of printing the message.  This theorem evaluates the
dispatch at the failing input. -/
theorem main_unknown_command_crashes :
    runMain (0, "Success") ["frobnicate"] = .uncaught .valueError := rfl

/-- C10: `get_open_entries` requires `count ≥ 1` to be total: with
`count = 0` the page-count computation `int(countOpen / count)` raises
`ZeroDivisionError` and no `(rows, pageCount)` result is produced, while
for every `count ≥ 1` the call returns a result (the error branch is
unreachable). -/
theorem get_open_entries_zero_count (st : DBState) (offset width : Nat) :
    Model.get_open_entries st 0 offset width = .error .zeroDivisionError ∧
    ∀ count : Nat, 1 ≤ count → ∃ rows pc,
      Model.get_open_entries st count offset width = .ok ((rows, pc), st) := by
  constructor
  · simp [Model.get_open_entries]
  · intro count hc
    have hne : ¬count = 0 := by omega
    refine ⟨(((openDesc st).drop (offset * count)).take count).map
      (truncRow width), Model.get_open_entry_count st / count, ?_⟩
    simp [Model.get_open_entries, hne]

/-- C10 witness: on the three-notice store, `count = 0` raises the
division error and `count = 1` returns a result. -/
theorem get_open_entries_zero_count_witness :
    Model.get_open_entries db3 0 0 72 = .error .zeroDivisionError ∧
    ∃ rows pc, Model.get_open_entries db3 1 0 72 = .ok ((rows, pc), db3) :=
  ⟨(get_open_entries_zero_count db3 0 72).1,
   (get_open_entries_zero_count db3 0 72).2 1 (Nat.le_refl 1)⟩
